import Mathlib

/-!
# CreditParser: verification of the XML-to-structured-record transformation core

Shallow embedding of `src/backend/services/xmlParserService.js` (the text-node
extraction utilities, the path resolver, and the credit-report transformer).

Modelling conventions:
* A parsed XML tree is a `Node`: strings, numbers, objects (ordered key/value
  association lists, keys unique as produced by the XML parser), arrays, and
  the JS `null` value.  A JS `undefined` is modelled as `Option.none` at use
  sites (an absent object key).
* JS numbers are modelled exactly: integer scalars in the tree (`Node.num`),
  and `ℚ` for the results of `parseFloat`-based extraction and summation.
  IEEE-754 rounding of enormous values is outside the model.
* `new Date(...)` (a runtime primitive, not repository code) is modelled by
  `newDate`, covering exactly the dash-separated `YYYY-MM-DD` strings this
  codebase constructs; every other string yields the JS "Invalid Date",
  modelled as `JsDate.invalid`.  Wall-clock `new Date()` is a parameter `now`.
-/

set_option maxHeartbeats 1000000

/- The batteries `Rat` arithmetic operations are marked irreducible, which
blocks `decide`/`rfl` evaluation of closed rational computations; restore
default reducibility locally so closed statements about the embedding can be
checked by evaluation. -/
set_option allowUnsafeReducibility true
attribute [local semireducible] Rat.add Rat.sub Rat.mul Rat.inv Rat.ofScientific

/-! Structural character-list reimplementations of the string operations the
embedding needs (the core library versions use well-founded recursion or
iterator internals that do not reduce definitionally, which would block
kernel evaluation of closed statements about the embedding). -/

/-- JS `s.substring(a, b)` is `strTake (strDrop s a) (b - a)`; clamps. -/
def strTake (s : String) (n : Nat) : String :=
  (s.toList.take n).asString

def strDrop (s : String) (n : Nat) : String :=
  (s.toList.drop n).asString

/-- JS `String.prototype.trim` (whitespace at both ends). -/
def strTrim (s : String) : String :=
  ((s.toList.dropWhile Char.isWhitespace).reverse.dropWhile Char.isWhitespace).reverse.asString

/-- JS `String.prototype.toLowerCase` (ASCII). -/
def strToLower (s : String) : String :=
  (s.toList.map Char.toLower).asString

def splitOnCharAux (sep : Char) : List Char → List Char → List String
  | [], acc => [acc.reverse.asString]
  | c :: rest, acc =>
    if c = sep then acc.reverse.asString :: splitOnCharAux sep rest []
    else splitOnCharAux sep rest (c :: acc)

/-- `String.splitOn` for a single-character separator. -/
def splitOnChar (sep : Char) (s : String) : List String :=
  splitOnCharAux sep s.toList []

/-- `Array.prototype.join` / `String.intercalate`. -/
def joinWith (sep : String) : List String → String
  | [] => ""
  | [x] => x
  | x :: xs => x ++ sep ++ joinWith sep xs

inductive Node where
  | str (s : String)
  | num (n : Int)
  | obj (fields : List (String × Node))
  | arr (elems : List Node)
  | null
deriving Repr, Inhabited

/-- JS truthiness of a value: empty strings, zero and `null` are falsy;
objects and arrays are always truthy. -/
def Node.truthy : Node → Bool
  | .str s => s != ""
  | .num n => n != 0
  | .obj _ => true
  | .arr _ => true
  | .null => false

/-- First-match association-list lookup (JS object keys are unique, so this is
plain JS property access on objects). -/
def lookupEntry : List (String × Node) → String → Option Node
  | [], _ => none
  | (k, v) :: rest, key => if k = key then some v else lookupEntry rest key

/-- The enumerable own entries of a value: object fields in insertion order,
array elements under their stringified indices, nothing for scalars. -/
def Node.entries : Node → List (String × Node)
  | .obj fs => fs
  | .arr xs => xs.enum.map (fun p => (toString p.1, p.2))
  | _ => []

/-- JS property access `n[key]`; `none` models `undefined` (also for property
access on primitives, which never throws). -/
def Node.get (n : Node) (key : String) : Option Node :=
  lookupEntry n.entries key

def Node.isArr : Node → Bool
  | .arr _ => true
  | _ => false

/-- The singular/plural normalization `Array.isArray(x) ? x : [x]`. -/
def toElems : Node → List Node
  | .arr xs => xs
  | n => [n]

/-- Filter a possibly-absent value through a JS truthiness test
(`if (x) { ... }` guards). -/
def truthyOpt : Option Node → Option Node
  | some n => if n.truthy then some n else none
  | none => none

/-- JS `a || b` on possibly-absent values. -/
def jsOr (a b : Option Node) : Option Node :=
  match a with
  | some v => if v.truthy then some v else b
  | none => b

/-- JS `a || b` on strings (empty string is falsy). -/
def jsOrStr (a b : String) : String :=
  if a = "" then b else a

/-- JS optional chaining `v?.key`: `undefined`/`null` short-circuit to
`undefined`, anything else is plain property access. -/
def optChain (v : Option Node) (key : String) : Option Node :=
  match v with
  | none => none
  | some .null => none
  | some n => n.get key

/-- One step of `getNestedValue`'s reduce:
`current && current[key] !== undefined ? current[key] : undefined`. -/
def gnvStep (current : Option Node) (key : String) : Option Node :=
  match current with
  | none => none
  | some c => if c.truthy then c.get key else none

/-- `getNestedValue(obj, path)`: split the dotted path and walk the tree,
`undefined` on any missing intermediate. -/
def getNestedValue (n : Node) (path : String) : Option Node :=
  (splitOnChar '.' path).foldl gnvStep (some n)

/-- `findValueFromPaths(obj, paths)`: first value along the candidate paths
that is neither `undefined` nor `null` (the JS function returns `null` when
none match; callers treat `null` and `undefined` alike, both are `none`). -/
def findValueFromPaths (n : Node) : List String → Option Node
  | [] => none
  | p :: rest =>
    match getNestedValue n p with
    | some .null => findValueFromPaths n rest
    | some v => some v
    | none => findValueFromPaths n rest

mutual

/-- JS `String(v)` / `v.toString()` for tree values. -/
def jsToString : Node → String
  | .str s => s
  | .num n => toString n
  | .obj _ => "[object Object]"
  | .arr xs => jsToStringElems xs
  | .null => "null"

/-- JS `Array.prototype.toString` (comma join; `null` elements print empty). -/
def jsToStringElems : List Node → String
  | [] => ""
  | [Node.null] => ""
  | [x] => jsToString x
  | Node.null :: xs => "," ++ jsToStringElems xs
  | x :: xs => jsToString x ++ "," ++ jsToStringElems xs

end

/-- `Object.values(node).find(val => typeof val === 'string') || ''`:
the first string-typed field value, else the empty string. -/
def firstStringValue : List (String × Node) → String
  | [] => ""
  | (_, Node.str s) :: _ => s
  | _ :: rest => firstStringValue rest

/-- `extractText(node)` from `xmlParserService.js`: best-effort scalar text.
Falsy input (including the number 0 and the empty string) gives `""`; strings
are trimmed; numbers stringified; objects prefer a truthy `#text` entry, else
the first string-typed field value; arrays give `""`. Total, never throws. -/
def extractText (node : Option Node) : String :=
  match node with
  | none => ""
  | some n =>
    if n.truthy then
      match n with
      | .str s => strTrim s
      | .num i => toString i
      | .obj fields =>
        match truthyOpt (lookupEntry fields "#text") with
        | some t => strTrim (jsToString t)
        | none => firstStringValue fields
      | .arr _ => ""
      | .null => ""
    else ""

/-- `text.replace(/[^0-9.-]/g, '')`. -/
def cleanNumber (s : String) : String :=
  (s.toList.filter (fun c => c.isDigit || c == '.' || c == '-')).asString

def digitsVal (ds : List Char) : Nat :=
  ds.foldl (fun a c => 10 * a + (c.toNat - 48)) 0

/-- JS `parseFloat` restricted to its inputs here (strings over digits, `.`
and `-` after `cleanNumber`): optional sign, integer digits, optional dot and
fraction digits, trailing junk ignored; `none` models `NaN`. -/
def parseFloatQ (s : String) : Option ℚ :=
  let cs := s.toList
  let signed := match cs with
    | '-' :: rest => (true, rest)
    | '+' :: rest => (false, rest)
    | _ => (false, cs)
  let intPart := signed.2.takeWhile Char.isDigit
  let rest1 := signed.2.dropWhile Char.isDigit
  let fracPart := match rest1 with
    | '.' :: r => r.takeWhile Char.isDigit
    | _ => []
  if intPart = [] ∧ fracPart = [] then none
  else
    let mag : ℚ := (digitsVal intPart : ℚ) + (digitsVal fracPart : ℚ) / ((10 : ℚ) ^ fracPart.length)
    some (if signed.1 then -mag else mag)

/-- `extractNumber(node)`: extract text, strip non-numeric characters, parse
as a float, `0` when the result is `NaN`. Total, never throws. -/
def extractNumber (node : Option Node) : ℚ :=
  match parseFloatQ (cleanNumber (extractText node)) with
  | some q => q
  | none => 0

/-- Smallest `k` with `d ∣ 10 ^ k`, when one exists up to `d`. -/
def pow10Exp (d : Nat) : Option Nat :=
  (List.range (d + 1)).find? (fun k => 10 ^ k % d = 0)

def padLeftZeros (s : String) (k : Nat) : String :=
  if s.length ≥ k then s else (List.replicate (k - s.length) '0').asString ++ s

/-- JS number-to-string for the (decimal) rationals produced by
`extractNumber`: exact for integers and finite decimal fractions (the only
values reachable from `parseFloat`; exponent notation for extreme magnitudes
is outside the model). -/
def jsNumToString (q : ℚ) : String :=
  if q.den = 1 then toString q.num
  else
    match pow10Exp q.den with
    | some k =>
      let m := q.num.natAbs * 10 ^ k / q.den
      (if q.num < 0 then "-" else "") ++ toString (m / 10 ^ k) ++ "." ++
        padLeftZeros (toString (m % 10 ^ k)) k
    | none => toString q.num ++ "/" ++ toString q.den

inductive JsDate where
  | invalid
  | utc (year month day : Nat)
deriving Repr, DecidableEq, Inhabited

def isLeapYear (y : Nat) : Bool :=
  (y % 4 == 0 && y % 100 != 0) || y % 400 == 0

def daysInMonth (y m : Nat) : Nat :=
  if m = 2 then (if isLeapYear y then 29 else 28)
  else if m = 4 ∨ m = 6 ∨ m = 9 ∨ m = 11 then 30
  else 31

def parseNatDigits (s : String) : Option Nat :=
  if s.length > 0 && s.toList.all Char.isDigit then some (digitsVal s.toList) else none

/-- Model of the JS runtime `new Date(string)` (external runtime primitive,
not repository code) on the dash-separated date strings this codebase
constructs: `YYYY-MM-DD` with in-range month and day parses to a UTC calendar
date, anything else is the JS "Invalid Date". -/
def newDate (s : String) : JsDate :=
  match splitOnChar '-' s with
  | [ys, ms, ds] =>
    match parseNatDigits ys, parseNatDigits ms, parseNatDigits ds with
    | some y, some m, some d =>
      if ys.length = 4 ∧ ms.length = 2 ∧ ds.length = 2 ∧
          1 ≤ m ∧ m ≤ 12 ∧ 1 ≤ d ∧ d ≤ daysInMonth y m
      then .utc y m d else .invalid
    | _, _, _ => .invalid
  | _ => .invalid

def JsDate.getFullYear : JsDate → Option Nat
  | .invalid => none
  | .utc y _ _ => some y

/-- JS `getMonth()` is 0-indexed (May is 4). -/
def JsDate.getMonth : JsDate → Option Nat
  | .invalid => none
  | .utc _ m _ => some (m - 1)

def JsDate.getDate : JsDate → Option Nat
  | .invalid => none
  | .utc _ _ d => some d

/-- `extractDate(node)`: extract text; `null` when empty; generic date
parsing, `null` when the result is an invalid date. Total, never throws. -/
def extractDate (node : Option Node) : Option JsDate :=
  let text := extractText node
  if text = "" then none
  else
    match newDate text with
    | .invalid => none
    | d => some d

/-- `convertDate` (inner helper of `extractCreditAccounts`): `null` unless the
code is exactly 8 characters, else `new Date("YYYY-MM-DD")` from the split
substrings — returned even when that date is invalid (no `isNaN` check). -/
def convertDate (dateString : String) : Option JsDate :=
  if dateString = "" ∨ dateString.length ≠ 8 then none
  else some (newDate (strTake dateString 4 ++ "-" ++ strTake (strDrop dateString 4) 2
      ++ "-" ++ strTake (strDrop dateString 6) 2))

/-- The date-of-birth decoding on the primary applicant-details path
(`extractBasicDetails`, `Date_Of_Birth_Applicant`): skip the empty string and
the literal sentinel `00010201`; split into substrings (JS `substring` clamps
on short input — there is no length check here); skip when the year substring
is `0001`; otherwise construct the date, invalid or not. -/
def primaryDob (dobString : String) : Option JsDate :=
  if dobString ≠ "" ∧ dobString ≠ "00010201" then
    let year := strTake dobString 4
    let month := strTake (strDrop dobString 4) 2
    let day := strTake (strDrop dobString 6) 2
    if year ≠ "0001" then some (newDate (year ++ "-" ++ month ++ "-" ++ day))
    else none
  else none

/-- The date-of-birth decoding on the CAIS account-holder fallback path
(`extractBasicDetails`, `Date_of_birth`): requires truthy text of length
exactly 8, then constructs the date with no sentinel check. -/
def fallbackDob (dobString : String) : Option JsDate :=
  if dobString ≠ "" ∧ dobString.length = 8 then
    some (newDate (strTake dobString 4 ++ "-" ++ strTake (strDrop dobString 4) 2
      ++ "-" ++ strTake (strDrop dobString 6) 2))
  else none

/-- JS `String.prototype.includes` on character lists. -/
def listInfix (pat : List Char) : List Char → Bool
  | [] => pat.isEmpty
  | c :: rest => pat.isPrefixOf (c :: rest) || listInfix pat rest

def strIncludes (s pat : String) : Bool :=
  listInfix pat.toList s.toList

/-! ## Data model of the transformer output -/

/-- `basicDetails` as built by `extractBasicDetails`: fields are assigned only
along the branches that fire, so each is optional (`none` models a JS field
left `undefined`; for `creditScore` it also covers the explicit `null` written
for non-positive scores — the spec: "never null-vs-undefined ambiguity matters
operationally").  The final name fallback can assign a raw tree value
(`findValueFromPaths(...) || ''`), hence `name : Option Node`. -/
structure BasicDetails where
  name : Option Node := none
  mobilePhone : Option String := none
  pan : Option String := none
  email : Option String := none
  dateOfBirth : Option JsDate := none
  gender : Option String := none
  address : Option String := none
  creditScore : Option ℚ := none
deriving Repr

structure ReportSummary where
  totalAccounts : ℚ := 0
  activeAccounts : ℚ := 0
  closedAccounts : ℚ := 0
  currentBalanceAmount : ℚ := 0
  securedAmount : ℚ := 0
  unsecuredAmount : ℚ := 0
  recentEnquiries : ℚ := 0
deriving Repr, DecidableEq

/-- The own property names of `Object.prototype` in the Node runtime
(modelled from the runtime, not repository code).  A plain-object property
read whose dynamic key is none of the object's own keys falls through the
prototype chain to these inherited members; the code-translation tables in
`extractCreditAccounts` are read with document-supplied keys, so this case is
reachable there. -/
def objectPrototypeKeys : List String :=
  ["constructor", "hasOwnProperty", "isPrototypeOf", "propertyIsEnumerable",
   "toLocaleString", "toString", "valueOf", "__proto__", "__defineGetter__",
   "__defineSetter__", "__lookupGetter__", "__lookupSetter__"]

/-- The value produced by a code-translation table read `table[code]`: an own
entry or default (a label string), or an inherited `Object.prototype` member
— a function, or the `Object.prototype` object itself for `__proto__` — which
is truthy and therefore survives the `|| default` fallbacks. -/
inductive StrOrProto where
  | str (s : String)
  | protoMember (name : String)
deriving Repr, DecidableEq

/-- JS `String(...)` of an inherited `Object.prototype` member as the Node
runtime prints it (modelled from the runtime): the function source text for
the method members — the `constructor` member is the `Object` function
itself — and `"[object Object]"` for the `__proto__` accessor's value. -/
def protoMemberToString (name : String) : String :=
  if name = "__proto__" then "[object Object]"
  else if name = "constructor" then "function Object() \x7b [native code] \x7d"
  else "function " ++ name ++ "() \x7b [native code] \x7d"

/-- JS `+` of such a value with a string (`type += ' (Revolving)'`):
an inherited member is stringified into the result. -/
def jsConcat (v : StrOrProto) (t : String) : StrOrProto :=
  match v with
  | .str s => .str (s ++ t)
  | .protoMember n => .str (protoMemberToString n ++ t)

/-- A credit account record.  `paymentRating`, `portfolioType` and
`lastReported` are only written on the primary (CAIS) mapping path, so they
are optional; the legacy mapping leaves them `undefined`.  `type` and
`status` come from the translation tables and can therefore carry an
inherited `Object.prototype` member instead of a label string. -/
structure CreditAccount where
  type : StrOrProto
  bankName : String
  accountNumber : String
  address : String
  amountOverdue : ℚ
  currentBalance : ℚ
  sanctionedAmount : ℚ
  dateOpened : Option JsDate
  dateClosed : Option JsDate
  status : StrOrProto
  paymentHistory : String
  paymentRating : Option String
  portfolioType : Option String
  lastReported : Option JsDate
deriving Repr, DecidableEq

structure Enquiry where
  institution : String
  date : Option JsDate
  amount : ℚ
  purpose : String
deriving Repr, DecidableEq

structure TransformedReport where
  basicDetails : BasicDetails
  reportSummary : ReportSummary
  creditAccounts : List CreditAccount
  enquiries : List Enquiry
  reportDate : JsDate
deriving Repr

/-- JS falsiness of a possibly-unset tree-valued field (`!basicDetails.name`). -/
def nodeFalsy : Option Node → Bool
  | none => true
  | some n => !n.truthy

/-- JS falsiness of a possibly-unset string field (`!basicDetails.pan`). -/
def strFalsy : Option String → Bool
  | none => true
  | some s => s == ""

/-! ## extractBasicDetails -/

def addressFilter (part : String) : Bool :=
  part != "" && strTrim part != ""

def extractBasicDetails (reportRoot : Node) : BasicDetails :=
  let bd : BasicDetails := {}
  -- primary INProfileResponse applicant details
  let bd :=
    match truthyOpt (reportRoot.get "Current_Application") with
    | none => bd
    | some currentApp =>
      let bd :=
        match truthyOpt (optChain (currentApp.get "Current_Application_Details")
            "Current_Applicant_Details") with
        | none => bd
        | some ad =>
          let firstName := extractText (ad.get "First_Name")
          let lastName := extractText (ad.get "Last_Name")
          { bd with
            name := some (.str (strTrim (firstName ++ " " ++ lastName)))
            mobilePhone := some (jsOrStr (extractText (ad.get "MobilePhoneNumber"))
              (jsOrStr (extractText (ad.get "Telephone_Number_Applicant_1st")) ""))
            pan := some (extractText (ad.get "IncomeTaxPan"))
            email := some (extractText (ad.get "EMailId"))
            dateOfBirth := primaryDob (extractText (ad.get "Date_Of_Birth_Applicant")) }
      match truthyOpt (optChain (currentApp.get "Current_Application_Details")
          "Current_Applicant_Address_Details") with
      | none => bd
      | some adr =>
        let parts := [extractText (adr.get "FlatNoPlotNoHouseNo"),
                      extractText (adr.get "BldgNoSocietyName"),
                      extractText (adr.get "RoadNoNameAreaLocality"),
                      extractText (adr.get "City"),
                      extractText (adr.get "State"),
                      extractText (adr.get "PINCode")].filter addressFilter
        { bd with address := some (joinWith ", " parts) }
  -- credit score from the SCORE section (non-positive scores become null)
  let bd :=
    match truthyOpt (reportRoot.get "SCORE") with
    | none => bd
    | some score =>
      let s := extractNumber (score.get "BureauScore")
      { bd with creditScore := if s > 0 then some s else none }
  -- CAIS account-holder fallback details
  let bd :=
    match truthyOpt (optChain (reportRoot.get "CAIS_Account") "CAIS_Account_DETAILS") with
    | none => bd
    | some details =>
      let caisDetails : Option Node :=
        match details with
        | .arr xs => xs.head?
        | x => some x
      let bd :=
        match truthyOpt (optChain caisDetails "CAIS_Holder_Details") with
        | none => bd
        | some holder =>
          let bd :=
            if nodeFalsy bd.name then
              let firstName := extractText (holder.get "First_Name_Non_Normalized")
              let lastName := extractText (holder.get "Surname_Non_Normalized")
              { bd with name := some (.str (strTrim (firstName ++ " " ++ lastName))) }
            else bd
          let bd :=
            if strFalsy bd.pan then
              { bd with pan := some (extractText (holder.get "Income_TAX_PAN")) }
            else bd
          let bd :=
            if bd.dateOfBirth = none ∧ (truthyOpt (holder.get "Date_of_birth")).isSome then
              match fallbackDob (extractText (holder.get "Date_of_birth")) with
              | some d => { bd with dateOfBirth := some d }
              | none => bd
            else bd
          let genderCode := extractText (holder.get "Gender_Code")
          if genderCode = "1" then { bd with gender := some "Male" }
          else if genderCode = "2" then { bd with gender := some "Female" }
          else bd
      let bd :=
        match truthyOpt (optChain caisDetails "CAIS_Holder_Phone_Details") with
        | none => bd
        | some pd =>
          if strFalsy bd.mobilePhone then
            { bd with mobilePhone := some (jsOrStr (extractText (pd.get "Telephone_Number"))
                (jsOrStr (extractText (pd.get "Mobile_Telephone_Number")) "")) }
          else bd
      match truthyOpt (optChain caisDetails "CAIS_Holder_Address_Details") with
      | none => bd
      | some adr =>
        if strFalsy bd.address then
          let parts := [extractText (adr.get "First_Line_Of_Address_non_normalized"),
                        extractText (adr.get "Second_Line_Of_Address_non_normalized"),
                        extractText (adr.get "Third_Line_Of_Address_non_normalized"),
                        extractText (adr.get "City_non_normalized"),
                        extractText (adr.get "State_non_normalized"),
                        extractText (adr.get "ZIP_Postal_Code_non_normalized")].filter addressFilter
          { bd with address := some (joinWith ", " parts) }
        else bd
  -- deeply legacy single-value name lookups
  if nodeFalsy bd.name then
    let v := findValueFromPaths reportRoot
      ["PersonalInfo.Name", "PersonalInformation.Name", "ApplicantInfo.Name",
       "Consumer.Name", "Header.SubjectName"]
    { bd with name := some (match v with
        | some n => if n.truthy then n else .str ""
        | none => .str "") }
  else bd

/-! ## extractReportSummary -/

def accountsPaths : List String := ["Accounts", "CreditAccounts", "AccountInfo", "TradeLines"]

def enquiriesPaths : List String := ["Enquiries", "CreditEnquiries", "InquiryInfo"]

/-- `reportRoot.CAIS_Account?.CAIS_Summary`, filtered through the `if` guard. -/
def caisSummaryBlock (reportRoot : Node) : Option Node :=
  truthyOpt (optChain (reportRoot.get "CAIS_Account") "CAIS_Summary")

/-- `reportRoot.CAIS_Account?.CAIS_Account_DETAILS`, filtered through the `if`
guard. -/
def caisDetailsBlock (reportRoot : Node) : Option Node :=
  truthyOpt (optChain (reportRoot.get "CAIS_Account") "CAIS_Account_DETAILS")

/-- The active-status whitelist of the recompute `forEach` in
`extractReportSummary` (`status === '11' || status === '53' || status === '71'`). -/
def isActiveCode (st : String) : Bool :=
  st == "11" || st == "53" || st == "71"

/-- The per-account body of the recompute `forEach` in `extractReportSummary`:
count the status whitelist 11/53/71 as active and 13 as closed, add the current
balance to the overall total and to the unsecured bucket when the portfolio
type is `R`, else to the secured bucket. -/
def caisApplyAccount (s : ReportSummary) (account : Node) : ReportSummary :=
  let status := extractText (account.get "Account_Status")
  let currentBalance := extractNumber (account.get "Current_Balance")
  let s :=
    if isActiveCode status then
      { s with activeAccounts := s.activeAccounts + 1 }
    else if status == "13" then { s with closedAccounts := s.closedAccounts + 1 }
    else s
  let s := { s with currentBalanceAmount := s.currentBalanceAmount + currentBalance }
  let portfolioType := extractText (account.get "Portfolio_Type")
  if portfolioType = "R" then { s with unsecuredAmount := s.unsecuredAmount + currentBalance }
  else { s with securedAmount := s.securedAmount + currentBalance }

/-- The per-account body of the legacy `forEach` in `extractReportSummary`:
substring-based status and type matching. -/
def legacyApplyAccount (s : ReportSummary) (account : Node) : ReportSummary :=
  let status := extractText (jsOr (getNestedValue account "Status")
    (getNestedValue account "AccountStatus"))
  let s :=
    if status ≠ "" ∧ (strIncludes (strToLower status) "active" ∨ strIncludes (strToLower status) "current") then
      { s with activeAccounts := s.activeAccounts + 1 }
    else if status ≠ "" ∧ strIncludes (strToLower status) "closed" then
      { s with closedAccounts := s.closedAccounts + 1 }
    else s
  let balance := extractNumber (jsOr (getNestedValue account "CurrentBalance")
    (getNestedValue account "Balance"))
  let s := { s with currentBalanceAmount := s.currentBalanceAmount + balance }
  let accountType := extractText (jsOr (getNestedValue account "Type")
    (getNestedValue account "AccountType"))
  if accountType ≠ "" ∧ strIncludes (strToLower accountType) "secured" then
    { s with securedAmount := s.securedAmount + balance }
  else { s with unsecuredAmount := s.unsecuredAmount + balance }

/-- First section of `extractReportSummary`: CAIS summary counters and
outstanding balances (`extractNumber(...) || 0` in the source is the identity:
`extractNumber` never yields NaN, and `0 || 0` is `0`). -/
def summaryStage1 (reportRoot : Node) : ReportSummary :=
  let s : ReportSummary := {}
  match caisSummaryBlock reportRoot with
  | none => s
  | some caisSummary =>
    let s :=
      match truthyOpt (caisSummary.get "Credit_Account") with
      | none => s
      | some ca =>
        { s with totalAccounts := extractNumber (ca.get "CreditAccountTotal")
                 activeAccounts := extractNumber (ca.get "CreditAccountActive")
                 closedAccounts := extractNumber (ca.get "CreditAccountClosed") }
    match truthyOpt (caisSummary.get "Total_Outstanding_Balance") with
    | none => s
    | some ob =>
      { s with securedAmount := extractNumber (ob.get "Outstanding_Balance_Secured")
               unsecuredAmount := extractNumber (ob.get "Outstanding_Balance_UnSecured")
               currentBalanceAmount := extractNumber (ob.get "Outstanding_Balance_All") }

/-- Second section of `extractReportSummary`: recompute from the individual
CAIS account records when the counters gave 0. -/
def summaryStage2 (reportRoot : Node) (s : ReportSummary) : ReportSummary :=
  match caisDetailsBlock reportRoot with
  | none => s
  | some details =>
    if s.totalAccounts = 0 then
      (toElems details).foldl caisApplyAccount
        { s with totalAccounts := ((toElems details).length : ℚ) }
    else s

/-- Third section of `extractReportSummary`: the CAPS recent-enquiry
counter. -/
def summaryStage3 (reportRoot : Node) (s : ReportSummary) : ReportSummary :=
  match truthyOpt (optChain (reportRoot.get "CAPS") "CAPS_Summary") with
  | none => s
  | some caps => { s with recentEnquiries := extractNumber (caps.get "CAPSLast90Days") }

/-- Fourth section of `extractReportSummary`: the legacy fallback when no
accounts were found above. -/
def summaryStage4 (reportRoot : Node) (s : ReportSummary) : ReportSummary :=
  if s.totalAccounts = 0 then
    let s :=
      match truthyOpt (findValueFromPaths reportRoot accountsPaths) with
      | none => s
      | some accounts =>
        (toElems accounts).foldl legacyApplyAccount
          { s with totalAccounts := ((toElems accounts).length : ℚ) }
    match truthyOpt (findValueFromPaths reportRoot enquiriesPaths) with
    | none => s
    | some enqs => { s with recentEnquiries := ((toElems enqs).length : ℚ) }
  else s

def extractReportSummary (reportRoot : Node) : ReportSummary :=
  summaryStage4 reportRoot (summaryStage3 reportRoot
    (summaryStage2 reportRoot (summaryStage1 reportRoot)))

/-! ## extractCreditAccounts -/

/-- The account-type code translation table of `extractCreditAccounts`. -/
def accountTypeMap : List (String × String) :=
  [("10", "Credit Card"), ("51", "Personal Loan"), ("52", "Personal Loan"),
   ("53", "Auto Loan"), ("61", "Housing Loan"), ("71", "Gold Loan"),
   ("81", "Two Wheeler Loan")]

/-- The account-status code translation table of `extractCreditAccounts`. -/
def accountStatusMap : List (String × String) :=
  [("11", "Active - Regular"), ("12", "Active - Regular"),
   ("13", "Closed - Regular"), ("14", "Closed - Regular"),
   ("21", "Active - Irregular"), ("22", "Active - Irregular"),
   ("31", "Active - Irregular"), ("32", "Active - Irregular"),
   ("41", "Active - Irregular"), ("42", "Active - Irregular"),
   ("51", "Active - Irregular"), ("52", "Active - Irregular"),
   ("53", "Active - Irregular"), ("71", "Active - Irregular"),
   ("78", "Settled"), ("80", "Settled"), ("82", "Settled"),
   ("83", "Settled"), ("84", "Settled"), ("89", "Closed")]

/-- The account-type code translation plus portfolio-type qualifier
(inner helper of `extractCreditAccounts`).  `typeMap[typeCode]` is a
dynamic-key property read: an own key yields its label; a key naming an
`Object.prototype` member yields that (truthy) inherited member, which the
`|| 'Other'` fallback keeps and the `+=` qualifier stringifies; any other key
yields `undefined` and falls back to `"Other"`. -/
def getAccountTypeString (typeCode portfolio : String) : StrOrProto :=
  let base : StrOrProto := match accountTypeMap.lookup typeCode with
    | some t => .str t
    | none =>
      if typeCode ∈ objectPrototypeKeys then .protoMember typeCode
      else .str "Other"
  let base := if portfolio = "R" then jsConcat base " (Revolving)" else base
  if portfolio = "I" then jsConcat base " (Installment)" else base

/-- The account-status code translation (inner helper of
`extractCreditAccounts`); `statusMap[statusCode]` is likewise a dynamic-key
property read: unmapped codes render as `"Status {code}"` unless they name an
`Object.prototype` member, which is returned as-is. -/
def getAccountStatus (statusCode : String) : StrOrProto :=
  match accountStatusMap.lookup statusCode with
  | some st => .str st
  | none =>
    if statusCode ∈ objectPrototypeKeys then .protoMember statusCode
    else .str ("Status " ++ statusCode)

/-- The per-record mapping of the primary (CAIS) account path. -/
def mapCaisAccount (account : Node) : CreditAccount :=
  let accountType := extractText (account.get "Account_Type")
  let portfolioType := extractText (account.get "Portfolio_Type")
  { type := getAccountTypeString accountType portfolioType
    bankName := jsOrStr (strTrim (extractText (account.get "Subscriber_Name"))) "Unknown Bank"
    accountNumber := jsOrStr (extractText (account.get "Account_Number")) "N/A"
    address := ""
    amountOverdue := extractNumber (account.get "Amount_Past_Due")
    currentBalance := extractNumber (account.get "Current_Balance")
    sanctionedAmount :=
      let cl := extractNumber (account.get "Credit_Limit_Amount")
      if cl ≠ 0 then cl else extractNumber (account.get "Highest_Credit_or_Original_Loan_Amount")
    dateOpened := convertDate (extractText (account.get "Open_Date"))
    dateClosed := convertDate (extractText (account.get "Date_Closed"))
    status := getAccountStatus (extractText (account.get "Account_Status"))
    paymentHistory := extractText (account.get "Payment_History_Profile")
    paymentRating := some (jsOrStr (extractText (account.get "Payment_Rating")) "0")
    portfolioType := some portfolioType
    lastReported := convertDate (extractText (account.get "Date_Reported")) }

/-- The per-record mapping of the legacy account path. -/
def mapLegacyAccount (account : Node) : CreditAccount :=
  { type := .str (jsOrStr (extractText (jsOr (getNestedValue account "Type")
      (getNestedValue account "AccountType"))) "Other")
    bankName := extractText (jsOr (getNestedValue account "BankName")
      (jsOr (getNestedValue account "Institution") (getNestedValue account "Creditor")))
    accountNumber := extractText (jsOr (getNestedValue account "AccountNumber")
      (getNestedValue account "AccNum"))
    address := extractText (getNestedValue account "Address")
    amountOverdue := extractNumber (jsOr (getNestedValue account "AmountOverdue")
      (getNestedValue account "PastDue"))
    currentBalance := extractNumber (jsOr (getNestedValue account "CurrentBalance")
      (getNestedValue account "Balance"))
    sanctionedAmount := extractNumber (jsOr (getNestedValue account "SanctionedAmount")
      (getNestedValue account "CreditLimit"))
    dateOpened := extractDate (jsOr (getNestedValue account "DateOpened")
      (getNestedValue account "OpenDate"))
    dateClosed := extractDate (jsOr (getNestedValue account "DateClosed")
      (getNestedValue account "CloseDate"))
    status := .str (jsOrStr (extractText (jsOr (getNestedValue account "Status")
      (getNestedValue account "AccountStatus"))) "Active")
    paymentHistory := extractText (getNestedValue account "PaymentHistory")
    paymentRating := none
    portfolioType := none
    lastReported := none }

/-- The primary (CAIS) path of `extractCreditAccounts`. -/
def caisAccounts (reportRoot : Node) : List CreditAccount :=
  match caisDetailsBlock reportRoot with
  | none => []
  | some details => (toElems details).map mapCaisAccount

/-- The legacy path of `extractCreditAccounts` (`accounts` stays `[]` when no
legacy collection is found). -/
def legacyAccounts (reportRoot : Node) : List CreditAccount :=
  match truthyOpt (findValueFromPaths reportRoot accountsPaths) with
  | none => []
  | some accountsData => (toElems accountsData).map mapLegacyAccount

def extractCreditAccounts (reportRoot : Node) : List CreditAccount :=
  let accounts := caisAccounts reportRoot
  if accounts.length = 0 then legacyAccounts reportRoot
  else accounts

/-! ## extractEnquiries -/

/-- The synthetic-enquiry purpose string, interpolating the CAPS counters. -/
def capsPurpose (r90 r30 r7 : ℚ) : String :=
  jsNumToString r90 ++ " enquiries in last 90 days (" ++ jsNumToString r30 ++
    " in last 30 days, " ++ jsNumToString r7 ++ " in last 7 days)"

/-- The primary-format enquiry synthesis from the CAPS summary counters.
The synthetic record's `date` is the wall clock (`new Date()`), passed in as
`now`. -/
def capsEnquiries (now : JsDate) (reportRoot : Node) : List Enquiry :=
  match truthyOpt (reportRoot.get "CAPS") with
  | none => []
  | some caps =>
    match truthyOpt (caps.get "CAPS_Summary") with
    | none => []
    | some cs =>
      let r90 := extractNumber (cs.get "CAPSLast90Days")
      let r30 := extractNumber (cs.get "CAPSLast30Days")
      let r7 := extractNumber (cs.get "CAPSLast7Days")
      if r90 > 0 then
        [{ institution := "Various Institutions", date := some now, amount := 0,
           purpose := capsPurpose r90 r30 r7 }]
      else []

def mapLegacyEnquiry (enquiry : Node) : Enquiry :=
  { institution := extractText (jsOr (getNestedValue enquiry "Institution")
      (getNestedValue enquiry "BankName"))
    date := extractDate (jsOr (getNestedValue enquiry "Date")
      (getNestedValue enquiry "EnquiryDate"))
    amount := extractNumber (jsOr (getNestedValue enquiry "Amount")
      (getNestedValue enquiry "EnquiryAmount"))
    purpose := extractText (jsOr (getNestedValue enquiry "Purpose")
      (getNestedValue enquiry "EnquiryPurpose")) }

/-- The legacy per-enquiry collection mapping. -/
def legacyEnquiries (reportRoot : Node) : List Enquiry :=
  match truthyOpt (findValueFromPaths reportRoot enquiriesPaths) with
  | none => []
  | some enquiriesData => (toElems enquiriesData).map mapLegacyEnquiry

def extractEnquiries (now : JsDate) (reportRoot : Node) : List Enquiry :=
  let enquiries := capsEnquiries now reportRoot
  if enquiries.length = 0 then legacyEnquiries reportRoot else enquiries

/-! ## findReportRoot and the transformer entry point -/

def possibleRoots : List String :=
  ["CreditReport", "CREDITREPORT", "ExpCreditReport", "Report",
   "XMLResponse.CreditReport", "XMLResponse.Response.CreditReport"]

/-- The root-indicator name fragments of `validateExperianXml`. -/
def experianIndicators : List String :=
  ["INProfileResponse", "CreditReport", "CREDITREPORT", "ExpCreditReport",
   "Report", "XMLResponse"]

def findRootFromPaths (parsedXml : Node) : List String → Option Node
  | [] => none
  | p :: rest =>
    match truthyOpt (getNestedValue parsedXml p) with
    | some root => some root
    | none => findRootFromPaths parsedXml rest

/-- JS `typeof v === 'object' && v !== null` (arrays included, `null`
excluded). -/
def isObjectLike : Node → Bool
  | .obj _ => true
  | .arr _ => true
  | _ => false

/-- The final fallback of `findReportRoot`: the first property whose value has
JS `typeof` "object" and is not `null` (arrays included). -/
def firstObjectValue : List (String × Node) → Option Node
  | [] => none
  | (_, v) :: rest => if isObjectLike v then some v else firstObjectValue rest

/-- `findReportRoot(parsedXml)`: the truthy `INProfileResponse` root, else the
first truthy named fallback root, else the first object-valued property. -/
def findReportRoot (parsedXml : Node) : Option Node :=
  match truthyOpt (parsedXml.get "INProfileResponse") with
  | some r => some r
  | none =>
    match findRootFromPaths parsedXml possibleRoots with
    | some r => some r
    | none => firstObjectValue parsedXml.entries

/-- `transformCreditReportData(parsedXml)`: locate the report root (throwing
when none is found — the catch block relabels the message) and assemble the
four independently extracted groups.  The wall clock (`new Date()`, used for
`reportDate` and the synthetic enquiry's date) is the parameter `now`. -/
def transformCreditReportData (now : JsDate) (parsedXml : Node) :
    Except String TransformedReport :=
  match findReportRoot parsedXml with
  | none => .error "Data transformation failed: Could not find credit report data in XML"
  | some reportRoot =>
    .ok { basicDetails := extractBasicDetails reportRoot
          reportSummary := extractReportSummary reportRoot
          creditAccounts := extractCreditAccounts reportRoot
          enquiries := extractEnquiries now reportRoot
          reportDate := now }

/-! ## Claim C5: account type and status code translation -/

/-- C5 counterexample: the claim's "any unmapped code" clauses fail for codes
naming inherited `Object.prototype` members — `typeMap['toString']` and
`statusMap['constructor']` are dynamic-key property reads that fall through
to the (truthy) prototype members instead of the defaults, so type code
"toString" with portfolio "I" yields the stringified inherited function
rather than "Other (Installment)", and status code "constructor" yields the
`Object` constructor itself rather than "Status constructor".  Both codes are
reachable as ordinary text of a parsed `Account_Type`/`Account_Status`
element. -/
theorem c5_counterexample :
    accountTypeMap.lookup "toString" = none ∧
    getAccountTypeString "toString" "I" ≠ .str "Other (Installment)" ∧
    getAccountTypeString "toString" "I" =
      .str "function toString() \x7b [native code] \x7d (Installment)" ∧
    accountStatusMap.lookup "constructor" = none ∧
    getAccountStatus "constructor" ≠ .str "Status constructor" ∧
    getAccountStatus "constructor" = .protoMember "constructor" ∧
    extractText (some (.str "toString")) = "toString" := by
  refine ⟨by decide, by decide, by decide, by decide, by decide, by decide, by decide⟩

/-- C5 amended: the six concrete translations hold as stated (with string
results); an unmapped type code that does not name an `Object.prototype`
member yields "Other (Installment)" with portfolio "I", and an unmapped
status code that does not name one yields "Status " plus the code; an
unmapped code that *does* name an inherited `Object.prototype` member
instead picks the inherited member up — stringified into the type label when
a portfolio qualifier is appended, and returned raw as the status. -/
theorem c5_amended_code_translation :
    getAccountTypeString "10" "R" = .str "Credit Card (Revolving)" ∧
    getAccountTypeString "51" "I" = .str "Personal Loan (Installment)" ∧
    getAccountTypeString "99" "I" = .str "Other (Installment)" ∧
    getAccountStatus "11" = .str "Active - Regular" ∧
    getAccountStatus "13" = .str "Closed - Regular" ∧
    getAccountStatus "99" = .str "Status 99" ∧
    (∀ code, accountTypeMap.lookup code = none → code ∉ objectPrototypeKeys →
      getAccountTypeString code "I" = .str "Other (Installment)") ∧
    (∀ code, accountStatusMap.lookup code = none → code ∉ objectPrototypeKeys →
      getAccountStatus code = .str ("Status " ++ code)) ∧
    (∀ code, accountTypeMap.lookup code = none → code ∈ objectPrototypeKeys →
      getAccountTypeString code "I" =
        .str (protoMemberToString code ++ " (Installment)")) ∧
    (∀ code, accountStatusMap.lookup code = none → code ∈ objectPrototypeKeys →
      getAccountStatus code = .protoMember code) := by
  refine ⟨by decide, by decide, by decide, by decide, by decide, by decide,
    ?_, ?_, ?_, ?_⟩
  · intro code h hk
    unfold getAccountTypeString
    rw [h]
    simp [hk, jsConcat]
  · intro code h hk
    unfold getAccountStatus
    rw [h]
    simp [hk]
  · intro code h hk
    unfold getAccountTypeString
    rw [h]
    simp [hk, jsConcat]
  · intro code h hk
    unfold getAccountStatus
    rw [h]
    simp [hk]

/-- Witness for C5's amended universally quantified clauses at the concrete
codes "43" and "23" (plain unmapped) and "toString" and "constructor"
(inherited `Object.prototype` members). -/
theorem c5_amended_witness :
    getAccountTypeString "43" "I" = .str "Other (Installment)" ∧
    getAccountStatus "23" = .str "Status 23" ∧
    getAccountTypeString "toString" "I" =
      .str (protoMemberToString "toString" ++ " (Installment)") ∧
    getAccountStatus "constructor" = .protoMember "constructor" :=
  ⟨c5_amended_code_translation.2.2.2.2.2.2.1 "43" (by decide) (by decide),
   c5_amended_code_translation.2.2.2.2.2.2.2.1 "23" (by decide) (by decide),
   c5_amended_code_translation.2.2.2.2.2.2.2.2.1 "toString" (by decide) (by decide),
   c5_amended_code_translation.2.2.2.2.2.2.2.2.2 "constructor" (by decide) (by decide)⟩

/-! ## Claim C4: YYYYMMDD date decoding -/

def c4FallbackRoot : Node :=
  .obj [("CAIS_Account", .obj [("CAIS_Account_DETAILS",
    .obj [("CAIS_Holder_Details", .obj [("Date_of_birth", .str "00010201")])])])]

/-- C4 counterexample: the claim asserts the `00010201`/`0001…` sentinel and
the 8-character length check apply on all date paths, but the CAIS
account-holder fallback path and the account-date `convertDate` perform no
sentinel check — the sentinel `"00010201"` decodes to a *present* year-1 date
there — and the primary applicant path performs no length check — the
9-character `"199005151"` decodes to a present 1990-05-15 date. -/
theorem c4_counterexample :
    (extractBasicDetails c4FallbackRoot).dateOfBirth = some (JsDate.utc 1 2 1) ∧
    fallbackDob "00010201" = some (JsDate.utc 1 2 1) ∧
    convertDate "00010201" = some (JsDate.utc 1 2 1) ∧
    primaryDob "199005151" = some (JsDate.utc 1990 5 15) := by
  refine ⟨by decide, by decide, by decide, by decide⟩

/-- C4 amended: `"19900515"` decodes to year 1990, month index 4 (May), day 15
on all three paths; a code whose first four characters are `"0001"` (the
sentinel included) yields absent on the *primary applicant path only*; a
string not exactly 8 characters long yields absent on the *CAIS fallback and
account-date paths only* (the primary path instead attempts substring
parsing); on the fallback and account-date paths the sentinel `"00010201"`
decodes to the present date year 1, February 1. -/
theorem c4_amended_date_decoding :
    primaryDob "19900515" = some (JsDate.utc 1990 5 15) ∧
    fallbackDob "19900515" = some (JsDate.utc 1990 5 15) ∧
    convertDate "19900515" = some (JsDate.utc 1990 5 15) ∧
    (JsDate.utc 1990 5 15).getFullYear = some 1990 ∧
    (JsDate.utc 1990 5 15).getMonth = some 4 ∧
    (JsDate.utc 1990 5 15).getDate = some 15 ∧
    (∀ s : String, strTake s 4 = "0001" → primaryDob s = none) ∧
    (∀ s : String, s.length ≠ 8 → fallbackDob s = none) ∧
    (∀ s : String, s.length ≠ 8 → convertDate s = none) ∧
    fallbackDob "00010201" = some (JsDate.utc 1 2 1) ∧
    convertDate "00010201" = some (JsDate.utc 1 2 1) := by
  refine ⟨by decide, by decide, by decide, by decide, by decide, by decide,
    ?_, ?_, ?_, by decide, by decide⟩
  · intro s h
    simp [primaryDob, h]
  · intro s h
    simp [fallbackDob, h]
  · intro s h
    simp [convertDate, h]

/-- Witness for C4's amended universally quantified clauses at the concrete
codes "00019999" (sentinel prefix, primary path) and "1990515" (7 chars). -/
theorem c4_amended_witness :
    primaryDob "00019999" = none ∧
    fallbackDob "1990515" = none ∧
    convertDate "1990515" = none :=
  ⟨c4_amended_date_decoding.2.2.2.2.2.2.1 "00019999" (by decide),
   c4_amended_date_decoding.2.2.2.2.2.2.2.1 "1990515" (by decide),
   c4_amended_date_decoding.2.2.2.2.2.2.2.2.1 "1990515" (by decide)⟩

/-! ## Claim C9: totality and defaults of the extraction utilities -/

/-- C9: the extraction utilities are total Lean functions over every node
shape (string, number, object, array, null) and over absent input — the
embedding has no partiality, so "never throws" holds by construction — and
their defaults are as specified: `extractText` yields `""` on nullish input,
`extractNumber` yields `0` whenever the stripped text does not parse as a
number, and `extractDate` yields absent whenever the extracted text is empty
or does not parse as a date. -/
theorem c9_utility_totality :
    extractText none = "" ∧
    extractText (some Node.null) = "" ∧
    (∀ node : Option Node, parseFloatQ (cleanNumber (extractText node)) = none →
      extractNumber node = 0) ∧
    (∀ node : Option Node, extractText node = "" → extractDate node = none) ∧
    (∀ node : Option Node, newDate (extractText node) = JsDate.invalid →
      extractDate node = none) := by
  refine ⟨rfl, rfl, ?_, ?_, ?_⟩
  · intro node h
    simp [extractNumber, h]
  · intro node h
    simp [extractDate, h]
  · intro node h
    by_cases he : extractText node = ""
    · simp [extractDate, he]
    · simp [extractDate, he, h]

/-- Witness for C9's universally quantified clauses at concrete nodes of each
shape: a non-numeric string, an array, and a text-bearing object. -/
theorem c9_utility_totality_witness :
    extractNumber (some (.str "N/A")) = 0 ∧
    extractDate (some (.arr [.num 1])) = none ∧
    extractDate (some (.obj [("#text", .str "not a date")])) = none :=
  ⟨c9_utility_totality.2.2.1 (some (.str "N/A")) (by decide),
   c9_utility_totality.2.2.2.1 (some (.arr [.num 1])) (by decide),
   c9_utility_totality.2.2.2.2 (some (.obj [("#text", .str "not a date")])) (by decide)⟩

/-! ## Shared lemmas about the embedding's primitives -/

theorem isPrefixOf_self_eq_true (l : List Char) : l.isPrefixOf l = true := by
  induction l with
  | nil => rfl
  | cons c t ih => simp [List.isPrefixOf, ih]

theorem strIncludes_self (s : String) : strIncludes s s = true := by
  unfold strIncludes
  cases h : s.toList with
  | nil => rfl
  | cons c t =>
    unfold listInfix
    rw [isPrefixOf_self_eq_true]
    rfl

theorem lookupEntry_eq_none {l : List (String × Node)} {k : String}
    (h : ∀ p ∈ l, p.1 ≠ k) : lookupEntry l k = none := by
  induction l with
  | nil => rfl
  | cons p rest ih =>
    unfold lookupEntry
    rw [if_neg (h p (by simp))]
    exact ih (fun q hq => h q (by simp [hq]))

theorem firstObjectValue_eq_none {l : List (String × Node)}
    (h : ∀ p ∈ l, isObjectLike p.2 = false) : firstObjectValue l = none := by
  induction l with
  | nil => rfl
  | cons p rest ih =>
    unfold firstObjectValue
    rw [h p (by simp), if_neg (by simp)]
    exact ih (fun q hq => h q (by simp [hq]))

theorem foldl_gnvStep_none (l : List String) : l.foldl gnvStep none = none := by
  induction l with
  | nil => rfl
  | cons k rest ih => rw [List.foldl_cons]; exact ih

theorem getNestedValue_eq_none (doc : Node) (path k : String) (rest : List String)
    (hsplit : splitOnChar '.' path = k :: rest) (hk : doc.get k = none) :
    getNestedValue doc path = none := by
  unfold getNestedValue
  rw [hsplit, List.foldl_cons]
  have hstep : gnvStep (some doc) k = none := by
    show (if doc.truthy = true then doc.get k else none) = none
    rw [hk]
    exact ite_self none
  rw [hstep]
  exact foldl_gnvStep_none rest

/-! ## Claim C8: enquiry synthesis from CAPS counters -/

/-- C8: whenever the CAPS trailing-90-day counter extracts to a positive
number, `extractEnquiries` produces exactly one synthetic enquiry with
institution "Various Institutions", amount 0 and the count-interpolating
purpose string; when the counter is zero (or absent, extracting to 0), the
result is the legacy per-enquiry collection extraction. -/
theorem c8_enquiry_synthesis :
    (∀ (now : JsDate) (root caps cs : Node),
      truthyOpt (root.get "CAPS") = some caps →
      truthyOpt (caps.get "CAPS_Summary") = some cs →
      0 < extractNumber (cs.get "CAPSLast90Days") →
      extractEnquiries now root =
        [{ institution := "Various Institutions", date := some now, amount := 0,
           purpose := capsPurpose (extractNumber (cs.get "CAPSLast90Days"))
             (extractNumber (cs.get "CAPSLast30Days"))
             (extractNumber (cs.get "CAPSLast7Days")) }]) ∧
    (∀ (now : JsDate) (root : Node),
      (∀ caps cs, truthyOpt (root.get "CAPS") = some caps →
        truthyOpt (caps.get "CAPS_Summary") = some cs →
        extractNumber (cs.get "CAPSLast90Days") ≤ 0) →
      extractEnquiries now root = legacyEnquiries root) := by
  constructor
  · intro now root caps cs h1 h2 h3
    unfold extractEnquiries capsEnquiries
    simp [h1, h2, h3]
  · intro now root h
    have hc : capsEnquiries now root = [] := by
      unfold capsEnquiries
      cases h1 : truthyOpt (root.get "CAPS") with
      | none => rfl
      | some caps =>
        cases h2 : truthyOpt (caps.get "CAPS_Summary") with
        | none => simp [h2]
        | some cs =>
          have h90 : ¬ (0 < extractNumber (cs.get "CAPSLast90Days")) :=
            not_lt.mpr (h caps cs h1 h2)
          simp [h2, h90]
    unfold extractEnquiries
    rw [hc]
    rfl

def c8Root : Node := .obj [("CAPS", .obj [("CAPS_Summary", .obj
  [("CAPSLast90Days", .str "2"), ("CAPSLast30Days", .str "1"),
   ("CAPSLast7Days", .str "0")])])]

def c8ZeroRoot : Node := .obj [("CAPS", .obj [("CAPS_Summary", .obj
  [("CAPSLast90Days", .str "0")])]), ("Enquiries", .obj [("Institution", .str "X")])]

/-- Witness for C8 at the concrete counters 90-day "2", 30-day "1",
7-day "0" (the spec's example: purpose contains "2 enquiries in last 90
days"), and at a zero 90-day counter (legacy path taken). -/
theorem c8_enquiry_synthesis_witness :
    extractEnquiries (.utc 2024 1 1) c8Root =
      [{ institution := "Various Institutions", date := some (.utc 2024 1 1), amount := 0,
         purpose := "2 enquiries in last 90 days (1 in last 30 days, 0 in last 7 days)" }] ∧
    strIncludes "2 enquiries in last 90 days (1 in last 30 days, 0 in last 7 days)"
      "2 enquiries in last 90 days" = true ∧
    extractEnquiries (.utc 2024 1 1) c8ZeroRoot = legacyEnquiries c8ZeroRoot := by
  refine ⟨?_, by decide, ?_⟩
  · exact (c8_enquiry_synthesis.1 (.utc 2024 1 1) c8Root _ _ rfl rfl (by decide)).trans
      (by decide)
  · refine c8_enquiry_synthesis.2 (.utc 2024 1 1) c8ZeroRoot ?_
    intro caps cs h1 h2
    have e1 : truthyOpt (c8ZeroRoot.get "CAPS") =
        some (Node.obj [("CAPS_Summary", Node.obj [("CAPSLast90Days", Node.str "0")])]) := rfl
    rw [e1] at h1
    rw [← Option.some.inj h1] at h2
    have e2 : truthyOpt ((Node.obj [("CAPS_Summary",
        Node.obj [("CAPSLast90Days", Node.str "0")])]).get "CAPS_Summary") =
        some (Node.obj [("CAPSLast90Days", Node.str "0")]) := rfl
    rw [e2] at h2
    rw [← Option.some.inj h2]
    decide

/-! ## Claim C1: totality of the transform given a locatable root -/

def c1EmptyDoc : Node := .obj [("INProfileResponse", .obj [])]

def c1MalformedDoc : Node := .obj [("INProfileResponse", .obj [
  ("Current_Application", .str "junk"), ("SCORE", .num 7),
  ("CAIS_Account", .str "bad"), ("CAPS", .num 3),
  ("Accounts", .num 0), ("Enquiries", .str "")])]

/-- C1: whenever a report root is locatable the transform returns a
`TransformedReport` (the four groups being the four extractors' total
results); the only error is the root-not-found condition; and on roots whose
group data is missing (`c1EmptyDoc`) or malformed scalars (`c1MalformedDoc`)
each group independently degrades to its empty/zero form: name `""`, all other
basic details absent, the all-zero summary, no accounts, no enquiries. -/
theorem c1_transform_totality :
    (∀ (now : JsDate) (doc root : Node), findReportRoot doc = some root →
      transformCreditReportData now doc = .ok
        { basicDetails := extractBasicDetails root
          reportSummary := extractReportSummary root
          creditAccounts := extractCreditAccounts root
          enquiries := extractEnquiries now root
          reportDate := now }) ∧
    (∀ (now : JsDate) (doc : Node), findReportRoot doc = none →
      transformCreditReportData now doc =
        .error "Data transformation failed: Could not find credit report data in XML") ∧
    (∀ now : JsDate, transformCreditReportData now c1EmptyDoc = .ok
      { basicDetails := { name := some (.str "") }
        reportSummary := {}
        creditAccounts := []
        enquiries := []
        reportDate := now }) ∧
    (∀ now : JsDate, transformCreditReportData now c1MalformedDoc = .ok
      { basicDetails := { name := some (.str "") }
        reportSummary := {}
        creditAccounts := []
        enquiries := []
        reportDate := now }) := by
  refine ⟨?_, ?_, ?_, ?_⟩
  · intro now doc root h
    unfold transformCreditReportData
    rw [h]
  · intro now doc h
    unfold transformCreditReportData
    rw [h]
  · intro now
    rfl
  · intro now
    rfl

/-- Witness for C1 at a concrete document with a locatable root and at a
concrete all-scalar document with none. -/
theorem c1_transform_totality_witness :
    transformCreditReportData (.utc 2024 1 1) c1EmptyDoc = .ok
      { basicDetails := extractBasicDetails (.obj [])
        reportSummary := extractReportSummary (.obj [])
        creditAccounts := extractCreditAccounts (.obj [])
        enquiries := extractEnquiries (.utc 2024 1 1) (.obj [])
        reportDate := .utc 2024 1 1 } ∧
    transformCreditReportData (.utc 2024 1 1) (.str "scalar") =
      .error "Data transformation failed: Could not find credit report data in XML" :=
  ⟨c1_transform_totality.1 (.utc 2024 1 1) c1EmptyDoc (.obj []) rfl,
   c1_transform_totality.2.1 (.utc 2024 1 1) (.str "scalar") rfl⟩

/-! ## Claim C2: root-not-found condition -/

def c2Doc : Node := .obj [("Foo", .obj [("Bar", .num 1)])]

/-- C2 counterexample: `c2Doc`'s only top-level key "Foo" shares no
case-insensitive substring with any known root indicator, yet
`transformCreditReportData` succeeds — `findReportRoot`'s final fallback
returns the first object-valued property regardless of its key. -/
theorem c2_counterexample :
    (∀ ind ∈ experianIndicators,
      strIncludes (strToLower "Foo") (strToLower ind) = false) ∧
    transformCreditReportData (.utc 2024 1 1) c2Doc = .ok
      { basicDetails := extractBasicDetails (.obj [("Bar", .num 1)])
        reportSummary := extractReportSummary (.obj [("Bar", .num 1)])
        creditAccounts := extractCreditAccounts (.obj [("Bar", .num 1)])
        enquiries := extractEnquiries (.utc 2024 1 1) (.obj [("Bar", .num 1)])
        reportDate := .utc 2024 1 1 } := by
  exact ⟨by decide, rfl⟩

theorem findRootFromPaths_eq_none {doc : Node} : ∀ {paths : List String},
    (∀ p ∈ paths, truthyOpt (getNestedValue doc p) = none) →
    findRootFromPaths doc paths = none := by
  intro paths h
  induction paths with
  | nil => rfl
  | cons p rest ih =>
    unfold findRootFromPaths
    rw [h p (by simp)]
    exact ih (fun q hq => h q (by simp [hq]))

/-- C2 amended: a document whose top-level keys share no recognizable-root
substring with any known indicator *and* which has no object-valued top-level
property (the final fallback of `findReportRoot`) makes
`transformCreditReportData` return the not-found error. -/
theorem c2_amended_root_not_found :
    ∀ (now : JsDate) (doc : Node),
    (∀ p ∈ doc.entries, ∀ ind ∈ experianIndicators,
      strIncludes (strToLower p.1) (strToLower ind) = false) →
    (∀ p ∈ doc.entries, isObjectLike p.2 = false) →
    transformCreditReportData now doc =
      .error "Data transformation failed: Could not find credit report data in XML" := by
  intro now doc hkeys hvals
  have hne : ∀ ind ∈ experianIndicators, ∀ p ∈ doc.entries, p.1 ≠ ind := by
    intro ind hind p hp heq
    have h := hkeys p hp ind hind
    rw [heq, strIncludes_self] at h
    simp at h
  have hget : ∀ ind ∈ experianIndicators, doc.get ind = none := by
    intro ind hind
    exact lookupEntry_eq_none (hne ind hind)
  have hpaths : findRootFromPaths doc possibleRoots = none := by
    apply findRootFromPaths_eq_none
    intro p hp
    fin_cases hp
    · rw [getNestedValue_eq_none doc "CreditReport" "CreditReport" [] rfl
        (hget "CreditReport" (by decide))]
      rfl
    · rw [getNestedValue_eq_none doc "CREDITREPORT" "CREDITREPORT" [] rfl
        (hget "CREDITREPORT" (by decide))]
      rfl
    · rw [getNestedValue_eq_none doc "ExpCreditReport" "ExpCreditReport" [] rfl
        (hget "ExpCreditReport" (by decide))]
      rfl
    · rw [getNestedValue_eq_none doc "Report" "Report" [] rfl
        (hget "Report" (by decide))]
      rfl
    · rw [getNestedValue_eq_none doc "XMLResponse.CreditReport" "XMLResponse"
        ["CreditReport"] rfl (hget "XMLResponse" (by decide))]
      rfl
    · rw [getNestedValue_eq_none doc "XMLResponse.Response.CreditReport" "XMLResponse"
        ["Response", "CreditReport"] rfl (hget "XMLResponse" (by decide))]
      rfl
  have hroot : findReportRoot doc = none := by
    unfold findReportRoot
    rw [hget "INProfileResponse" (by decide), hpaths, firstObjectValue_eq_none hvals]
    rfl
  unfold transformCreditReportData
  rw [hroot]

/-- Witness for C2's amended theorem at a concrete all-scalar document with
unrecognizable keys. -/
theorem c2_amended_witness :
    transformCreditReportData (.utc 2024 1 1) (.obj [("Foo", .str "x"), ("Baz", .num 3)]) =
      .error "Data transformation failed: Could not find credit report data in XML" :=
  c2_amended_root_not_found (.utc 2024 1 1) (.obj [("Foo", .str "x"), ("Baz", .num 3)])
    (by decide) (by decide)

/-! ## Claim C6: summary fallback computation from account records -/

theorem isActiveCode_eq_false_of_eq13 {st : String} (h : (st == "13") = true) :
    isActiveCode st = false := by
  have : st = "13" := eq_of_beq h
  subst this
  decide

/-- Effect of one recompute-`forEach` step on the three counters. -/
theorem caisApplyAccount_counts (s : ReportSummary) (a : Node) :
    (caisApplyAccount s a).totalAccounts = s.totalAccounts ∧
    (caisApplyAccount s a).activeAccounts = s.activeAccounts +
      (if isActiveCode (extractText (a.get "Account_Status")) then 1 else 0) ∧
    (caisApplyAccount s a).closedAccounts = s.closedAccounts +
      (if extractText (a.get "Account_Status") == "13" then 1 else 0) := by
  unfold caisApplyAccount
  by_cases h2 : (extractText (a.get "Account_Status") == "13") = true
  · have h1 : isActiveCode (extractText (a.get "Account_Status")) = false :=
      isActiveCode_eq_false_of_eq13 h2
    by_cases h3 : extractText (a.get "Portfolio_Type") = "R" <;> simp [h1, h2, h3]
  · by_cases h1 : isActiveCode (extractText (a.get "Account_Status")) <;>
      by_cases h3 : extractText (a.get "Portfolio_Type") = "R" <;>
        simp [h1, h2, h3]

/-- The recompute fold counts exactly: the whitelist statuses as active, the
"13" statuses as closed, and leaves `totalAccounts` untouched. -/
theorem caisFold_counts : ∀ (accs : List Node) (s : ReportSummary),
    (accs.foldl caisApplyAccount s).totalAccounts = s.totalAccounts ∧
    (accs.foldl caisApplyAccount s).activeAccounts = s.activeAccounts +
      (accs.countP (fun a => isActiveCode (extractText (a.get "Account_Status"))) : ℚ) ∧
    (accs.foldl caisApplyAccount s).closedAccounts = s.closedAccounts +
      (accs.countP (fun a => extractText (a.get "Account_Status") == "13") : ℚ) := by
  intro accs
  induction accs with
  | nil => intro s; simp
  | cons a t ih =>
    intro s
    rw [List.foldl_cons]
    obtain ⟨ht, ha, hc⟩ := ih (caisApplyAccount s a)
    obtain ⟨pt, pa, pc⟩ := caisApplyAccount_counts s a
    refine ⟨by rw [ht, pt], ?_, ?_⟩
    · rw [ha, pa, List.countP_cons]
      by_cases h : isActiveCode (extractText (a.get "Account_Status")) <;>
        simp [h] <;> push_cast <;> ring
    · rw [hc, pc, List.countP_cons]
      by_cases h : (extractText (a.get "Account_Status") == "13") = true <;>
        simp [h] <;> push_cast <;> ring

/-- The CAPS stage only touches `recentEnquiries`. -/
theorem summaryStage3_fields (root : Node) (s : ReportSummary) :
    (summaryStage3 root s).totalAccounts = s.totalAccounts ∧
    (summaryStage3 root s).activeAccounts = s.activeAccounts ∧
    (summaryStage3 root s).closedAccounts = s.closedAccounts ∧
    (summaryStage3 root s).currentBalanceAmount = s.currentBalanceAmount ∧
    (summaryStage3 root s).securedAmount = s.securedAmount ∧
    (summaryStage3 root s).unsecuredAmount = s.unsecuredAmount := by
  unfold summaryStage3
  cases truthyOpt (optChain (root.get "CAPS") "CAPS_Summary") <;> simp

/-- The legacy stage is skipped once accounts were counted. -/
theorem summaryStage4_of_total_ne (root : Node) (s : ReportSummary)
    (h : s.totalAccounts ≠ 0) : summaryStage4 root s = s := by
  unfold summaryStage4
  rw [if_neg h]

/-- C6: for a primary-format document with no CAIS summary block (so the
computed counter total is 0) but with account-detail records present, the
summary is recomputed from the records: `totalAccounts` is the number of
records, `activeAccounts` counts statuses in the whitelist {"11","53","71"},
and `closedAccounts` counts status "13" — for every record list and every
surrounding document content. -/
theorem c6_summary_fallback :
    ∀ (accs : List Node) (caisRest rest : List (String × Node)),
    accs ≠ [] →
    lookupEntry caisRest "CAIS_Summary" = none →
    (extractReportSummary (Node.obj (("CAIS_Account",
        Node.obj (("CAIS_Account_DETAILS", Node.arr accs) :: caisRest)) :: rest))).totalAccounts
      = (accs.length : ℚ) ∧
    (extractReportSummary (Node.obj (("CAIS_Account",
        Node.obj (("CAIS_Account_DETAILS", Node.arr accs) :: caisRest)) :: rest))).activeAccounts
      = (accs.countP (fun a => isActiveCode (extractText (a.get "Account_Status"))) : ℚ) ∧
    (extractReportSummary (Node.obj (("CAIS_Account",
        Node.obj (("CAIS_Account_DETAILS", Node.arr accs) :: caisRest)) :: rest))).closedAccounts
      = (accs.countP (fun a => extractText (a.get "Account_Status") == "13") : ℚ) := by
  intro accs caisRest rest hne hsum
  have h1 : summaryStage1 (Node.obj (("CAIS_Account",
      Node.obj (("CAIS_Account_DETAILS", Node.arr accs) :: caisRest)) :: rest)) = {} := by
    unfold summaryStage1
    rw [show caisSummaryBlock (Node.obj (("CAIS_Account",
        Node.obj (("CAIS_Account_DETAILS", Node.arr accs) :: caisRest)) :: rest)) =
      truthyOpt (lookupEntry caisRest "CAIS_Summary") from rfl, hsum]
    rfl
  have h2 : summaryStage2 (Node.obj (("CAIS_Account",
      Node.obj (("CAIS_Account_DETAILS", Node.arr accs) :: caisRest)) :: rest))
      (summaryStage1 (Node.obj (("CAIS_Account",
        Node.obj (("CAIS_Account_DETAILS", Node.arr accs) :: caisRest)) :: rest))) =
      accs.foldl caisApplyAccount { totalAccounts := (accs.length : ℚ) } := by
    rw [h1]
    unfold summaryStage2
    rfl
  obtain ⟨ft, fa, fc⟩ := caisFold_counts accs { totalAccounts := (accs.length : ℚ) }
  have hlen : ((accs.length : ℚ)) ≠ 0 := by
    simp only [ne_eq, Nat.cast_eq_zero, List.length_eq_zero]
    exact hne
  obtain ⟨st, sa, sc, _, _, _⟩ := summaryStage3_fields (Node.obj (("CAIS_Account",
      Node.obj (("CAIS_Account_DETAILS", Node.arr accs) :: caisRest)) :: rest))
    (accs.foldl caisApplyAccount { totalAccounts := (accs.length : ℚ) })
  have h4 : extractReportSummary (Node.obj (("CAIS_Account",
      Node.obj (("CAIS_Account_DETAILS", Node.arr accs) :: caisRest)) :: rest)) =
      summaryStage3 (Node.obj (("CAIS_Account",
        Node.obj (("CAIS_Account_DETAILS", Node.arr accs) :: caisRest)) :: rest))
        (accs.foldl caisApplyAccount { totalAccounts := (accs.length : ℚ) }) := by
    unfold extractReportSummary
    rw [h2]
    apply summaryStage4_of_total_ne
    rw [st, ft]
    exact hlen
  rw [h4, st, sa, sc, ft, fa, fc]
  refine ⟨rfl, by rw [zero_add], by rw [zero_add]⟩

def c6Accs : List Node :=
  [.obj [("Account_Status", .str "11"), ("Current_Balance", .str "10000"),
     ("Portfolio_Type", .str "R")],
   .obj [("Account_Status", .str "11")],
   .obj [("Account_Status", .str "71")]]

/-- Witness for C6 at the spec's example: three records with statuses "11",
"11", "71" give `totalAccounts = 3` and `activeAccounts = 3`. -/
theorem c6_summary_fallback_witness :
    (extractReportSummary (Node.obj [("CAIS_Account",
        Node.obj [("CAIS_Account_DETAILS", Node.arr c6Accs)])])).totalAccounts = 3 ∧
    (extractReportSummary (Node.obj [("CAIS_Account",
        Node.obj [("CAIS_Account_DETAILS", Node.arr c6Accs)])])).activeAccounts = 3 ∧
    (extractReportSummary (Node.obj [("CAIS_Account",
        Node.obj [("CAIS_Account_DETAILS", Node.arr c6Accs)])])).closedAccounts = 0 := by
  obtain ⟨ht, ha, hc⟩ := c6_summary_fallback c6Accs [] [] (by simp [c6Accs]) rfl
  exact ⟨ht.trans (by decide), ha.trans (by decide), hc.trans (by decide)⟩

/-! ## Claim C10: balance-bucket invariant of the recomputed summary -/

/-- The implicit invariant: the overall balance equals the sum of the secured
and unsecured buckets. -/
def balInv (s : ReportSummary) : Prop :=
  s.currentBalanceAmount = s.securedAmount + s.unsecuredAmount

theorem caisApplyAccount_balInv (s : ReportSummary) (a : Node) (h : balInv s) :
    balInv (caisApplyAccount s a) := by
  unfold balInv at h ⊢
  unfold caisApplyAccount
  by_cases h1 : isActiveCode (extractText (a.get "Account_Status")) <;>
    by_cases h2 : (extractText (a.get "Account_Status") == "13") = true <;>
      by_cases h3 : extractText (a.get "Portfolio_Type") = "R" <;>
        simp [h1, h2, h3, h] <;> ring

theorem legacyApplyAccount_balInv (s : ReportSummary) (a : Node) (h : balInv s) :
    balInv (legacyApplyAccount s a) := by
  unfold balInv at h ⊢
  unfold legacyApplyAccount
  dsimp only
  split_ifs <;> simp [h] <;> ring

theorem foldl_caisApply_balInv : ∀ (accs : List Node) (s : ReportSummary),
    balInv s → balInv (accs.foldl caisApplyAccount s) := by
  intro accs
  induction accs with
  | nil => intro s h; exact h
  | cons a t ih =>
    intro s h
    rw [List.foldl_cons]
    exact ih _ (caisApplyAccount_balInv s a h)

theorem foldl_legacyApply_balInv : ∀ (accs : List Node) (s : ReportSummary),
    balInv s → balInv (accs.foldl legacyApplyAccount s) := by
  intro accs
  induction accs with
  | nil => intro s h; exact h
  | cons a t ih =>
    intro s h
    rw [List.foldl_cons]
    exact ih _ (legacyApplyAccount_balInv s a h)

theorem balInv_set_total (s : ReportSummary) (x : ℚ) (h : balInv s) :
    balInv { s with totalAccounts := x } := h

theorem summaryStage2_balInv (root : Node) (s : ReportSummary) (h : balInv s) :
    balInv (summaryStage2 root s) := by
  unfold summaryStage2
  cases caisDetailsBlock root with
  | none => exact h
  | some details =>
    dsimp only
    by_cases ht : s.totalAccounts = 0
    · rw [if_pos ht]
      exact foldl_caisApply_balInv _ _ (balInv_set_total s _ h)
    · rw [if_neg ht]
      exact h

theorem summaryStage3_balInv (root : Node) (s : ReportSummary) (h : balInv s) :
    balInv (summaryStage3 root s) := by
  obtain ⟨_, _, _, hcb, hsec, hunsec⟩ := summaryStage3_fields root s
  unfold balInv
  rw [hcb, hsec, hunsec]
  exact h

theorem summaryStage4_balInv (root : Node) (s : ReportSummary) (h : balInv s) :
    balInv (summaryStage4 root s) := by
  unfold summaryStage4
  by_cases ht : s.totalAccounts = 0
  · rw [if_pos ht]
    have hmid : ∀ s1 : ReportSummary, balInv s1 →
        balInv (match truthyOpt (findValueFromPaths root enquiriesPaths) with
          | none => s1
          | some enqs => { s1 with recentEnquiries := ((toElems enqs).length : ℚ) }) := by
      intro s1 h1
      cases truthyOpt (findValueFromPaths root enquiriesPaths) with
      | none => exact h1
      | some enqs => exact h1
    apply hmid
    cases truthyOpt (findValueFromPaths root accountsPaths) with
    | none => exact h
    | some accounts =>
      exact foldl_legacyApply_balInv _ _ (balInv_set_total s _ h)
  · rw [if_neg ht]
    exact h

/-- C10: for every document with no (truthy) CAIS summary block — so all
summary balance fields start at 0 — but with account-detail records present,
the recomputed summary satisfies
`currentBalanceAmount = securedAmount + unsecuredAmount`: each account's
balance is added once to the overall total and once to exactly one of the two
buckets (unsecured when the portfolio type is "R", secured otherwise), and the
same bucketing discipline holds on the legacy path. -/
theorem c10_balance_bucket_invariant :
    ∀ root : Node, caisSummaryBlock root = none →
    (caisDetailsBlock root).isSome = true →
    (extractReportSummary root).currentBalanceAmount =
      (extractReportSummary root).securedAmount +
        (extractReportSummary root).unsecuredAmount := by
  intro root hsum _
  have h1 : summaryStage1 root = {} := by
    unfold summaryStage1
    rw [hsum]
  have hinit : balInv ({} : ReportSummary) := by
    unfold balInv
    show (0 : ℚ) = 0 + 0
    rw [add_zero]
  have : balInv (extractReportSummary root) := by
    unfold extractReportSummary
    rw [h1]
    exact summaryStage4_balInv _ _ (summaryStage3_balInv _ _ (summaryStage2_balInv _ _ hinit))
  exact this

def c10Root : Node := .obj [("CAIS_Account", .obj [("CAIS_Account_DETAILS", .arr
  [.obj [("Account_Status", .str "11"), ("Current_Balance", .str "50000"),
     ("Portfolio_Type", .str "R")],
   .obj [("Account_Status", .str "13"), ("Current_Balance", .str "20000"),
     ("Portfolio_Type", .str "I")]])])]

/-- Witness for C10 at a concrete two-account document (one revolving, one
installment). -/
theorem c10_balance_bucket_invariant_witness :
    (extractReportSummary c10Root).currentBalanceAmount =
      (extractReportSummary c10Root).securedAmount +
        (extractReportSummary c10Root).unsecuredAmount :=
  c10_balance_bucket_invariant c10Root rfl rfl

/-! ## Claim C7: idempotence up to wall-clock fields -/

/-- An enquiry with its (possibly wall-clock) date erased. -/
def enquirySansDate (e : Enquiry) : String × ℚ × String :=
  (e.institution, e.amount, e.purpose)

def c7Root : Node := .obj [("CAPS", .obj [("CAPS_Summary", .obj
  [("CAPSLast90Days", .str "2"), ("CAPSLast30Days", .str "1"),
   ("CAPSLast7Days", .str "0")])])]

def c7Doc : Node := .obj [("INProfileResponse", c7Root)]

/-- C7 counterexample: on a primary-format document with a positive CAPS
90-day counter, two transformations at different wall-clock instants produce
*different* enquiries (the synthetic enquiry's `date` is `new Date()`), so it
is not only `reportDate` that differs, contradicting the claim. -/
theorem c7_counterexample :
    (transformCreditReportData (.utc 2024 1 1) c7Doc).toOption.map
      TransformedReport.enquiries ≠
    (transformCreditReportData (.utc 2024 1 2) c7Doc).toOption.map
      TransformedReport.enquiries := by
  decide

theorem extractEnquiries_map_sansDate (now1 now2 : JsDate) (root : Node) :
    (extractEnquiries now1 root).map enquirySansDate =
    (extractEnquiries now2 root).map enquirySansDate := by
  have hcaps : (capsEnquiries now1 root).map enquirySansDate =
      (capsEnquiries now2 root).map enquirySansDate ∧
      (capsEnquiries now1 root).length = (capsEnquiries now2 root).length := by
    unfold capsEnquiries
    cases truthyOpt (root.get "CAPS") with
    | none => exact ⟨rfl, rfl⟩
    | some caps =>
      dsimp only
      cases truthyOpt (caps.get "CAPS_Summary") with
      | none => exact ⟨rfl, rfl⟩
      | some cs =>
        dsimp only
        by_cases h : 0 < extractNumber (cs.get "CAPSLast90Days")
        · rw [if_pos h, if_pos h]
          exact ⟨rfl, rfl⟩
        · rw [if_neg h, if_neg h]
          exact ⟨rfl, rfl⟩
  obtain ⟨hm, hl⟩ := hcaps
  unfold extractEnquiries
  by_cases h0 : (capsEnquiries now1 root).length = 0
  · rw [if_pos h0, if_pos (hl ▸ h0)]
  · rw [if_neg h0, if_neg (hl ▸ h0)]
    exact hm

/-- C7 amended: two transformations of the same document at different
wall-clock instants agree on `basicDetails`, `reportSummary` and
`creditAccounts`, and agree on `enquiries` up to each enquiry's `date` field
(institution, amount and purpose sequences identical); `reportDate` and the
synthetic CAPS enquiry's `date` carry the wall clock. -/
theorem c7_amended_idempotence :
    ∀ (now1 now2 : JsDate) (doc : Node) (r1 r2 : TransformedReport),
    transformCreditReportData now1 doc = .ok r1 →
    transformCreditReportData now2 doc = .ok r2 →
    r1.basicDetails = r2.basicDetails ∧
    r1.reportSummary = r2.reportSummary ∧
    r1.creditAccounts = r2.creditAccounts ∧
    r1.enquiries.map enquirySansDate = r2.enquiries.map enquirySansDate := by
  intro now1 now2 doc r1 r2 h1 h2
  unfold transformCreditReportData at h1 h2
  cases hr : findReportRoot doc with
  | none =>
    rw [hr] at h1
    exact Except.noConfusion h1
  | some root =>
    rw [hr] at h1 h2
    injection h1 with h1
    injection h2 with h2
    subst h1
    subst h2
    exact ⟨rfl, rfl, rfl, extractEnquiries_map_sansDate now1 now2 root⟩

/-- Witness for C7's amended theorem at the concrete CAPS document and two
distinct wall-clock instants. -/
theorem c7_amended_witness :
    ({ basicDetails := extractBasicDetails c7Root
       reportSummary := extractReportSummary c7Root
       creditAccounts := extractCreditAccounts c7Root
       enquiries := extractEnquiries (.utc 2024 1 1) c7Root
       reportDate := .utc 2024 1 1 } : TransformedReport).enquiries.map enquirySansDate =
    ({ basicDetails := extractBasicDetails c7Root
       reportSummary := extractReportSummary c7Root
       creditAccounts := extractCreditAccounts c7Root
       enquiries := extractEnquiries (.utc 2024 1 2) c7Root
       reportDate := .utc 2024 1 2 } : TransformedReport).enquiries.map enquirySansDate :=
  (c7_amended_idempotence (.utc 2024 1 1) (.utc 2024 1 2) c7Doc _ _ rfl rfl).2.2.2

/-! ## Claim C3: singular/plural normalization -/

theorem truthyOpt_some_of_truthy (x : Node) (hx : x.truthy = true) :
    truthyOpt (some x) = some x := by
  unfold truthyOpt
  dsimp only
  rw [hx]
  rfl

theorem truthy_ne_null (x : Node) (hx : x.truthy = true) : x ≠ Node.null := by
  intro h
  subst h
  simp [Node.truthy] at hx

theorem toElems_of_isArr_false (x : Node) (h : x.isArr = false) : toElems x = [x] := by
  cases x with
  | arr xs => simp [Node.isArr] at h
  | str s => rfl
  | num n => rfl
  | obj fs => rfl
  | null => rfl

/-- `findValueFromPaths` returns the head path's value when it is present and
non-null. -/
theorem fvp_cons_of_some (r : Node) (p : String) (rest : List String) (v : Node)
    (hv : getNestedValue r p = some v) (hnn : v ≠ Node.null) :
    findValueFromPaths r (p :: rest) = some v := by
  unfold findValueFromPaths
  rw [hv]
  cases v with
  | null => exact absurd rfl hnn
  | str s => rfl
  | num n => rfl
  | obj fs => rfl
  | arr xs => rfl

/-- `findValueFromPaths` skips a head path whose value is absent or null. -/
theorem fvp_cons_skip (r : Node) (p : String) (rest : List String)
    (h : getNestedValue r p = none ∨ getNestedValue r p = some Node.null) :
    findValueFromPaths r (p :: rest) = findValueFromPaths r rest := by
  rcases h with h | h <;>
    (conv_lhs => rw [findValueFromPaths]) <;> rw [h] <;> rfl

/-- Wrapping congruence for the path resolver: if along every candidate path
the two documents either agree or hold the bare node vs. its one-element
wrapping, the resolver either agrees or returns exactly that pair. -/
theorem fvp_rel (x : Node) (hnn : x ≠ Node.null) : ∀ (paths : List String) (r1 r2 : Node),
    (∀ p ∈ paths, getNestedValue r1 p = getNestedValue r2 p ∨
      (getNestedValue r1 p = some x ∧ getNestedValue r2 p = some (Node.arr [x]))) →
    (findValueFromPaths r1 paths = findValueFromPaths r2 paths ∨
      (findValueFromPaths r1 paths = some x ∧
        findValueFromPaths r2 paths = some (Node.arr [x]))) := by
  intro paths
  induction paths with
  | nil => intro r1 r2 h; left; rfl
  | cons p rest ih =>
    intro r1 r2 h
    rcases h p (by simp) with heq | ⟨h1, h2⟩
    · cases hM : getNestedValue r1 p with
      | none =>
        rw [fvp_cons_skip r1 p rest (Or.inl hM), fvp_cons_skip r2 p rest (Or.inl (heq ▸ hM))]
        exact ih r1 r2 (fun q hq => h q (by simp [hq]))
      | some m =>
        by_cases hmn : m = Node.null
        · subst hmn
          rw [fvp_cons_skip r1 p rest (Or.inr hM), fvp_cons_skip r2 p rest (Or.inr (heq ▸ hM))]
          exact ih r1 r2 (fun q hq => h q (by simp [hq]))
        · rw [fvp_cons_of_some r1 p rest m hM hmn, fvp_cons_of_some r2 p rest m (heq ▸ hM) hmn]
          left
          rfl
    · right
      exact ⟨fvp_cons_of_some r1 p rest x h1 hnn,
        fvp_cons_of_some r2 p rest (Node.arr [x]) h2 (by simp)⟩

theorem legacyAccounts_congr (r1 r2 x : Node) (hx : x.truthy = true) (hnarr : x.isArr = false)
    (haccs : findValueFromPaths r1 accountsPaths = findValueFromPaths r2 accountsPaths ∨
      (findValueFromPaths r1 accountsPaths = some x ∧
        findValueFromPaths r2 accountsPaths = some (Node.arr [x]))) :
    legacyAccounts r1 = legacyAccounts r2 := by
  unfold legacyAccounts
  rcases haccs with heq | ⟨h1, h2⟩
  · rw [heq]
  · rw [h1, h2, truthyOpt_some_of_truthy x hx]
    dsimp only
    rw [toElems_of_isArr_false x hnarr]
    rfl

theorem legacyEnquiries_congr (r1 r2 x : Node) (hx : x.truthy = true) (hnarr : x.isArr = false)
    (henqs : findValueFromPaths r1 enquiriesPaths = findValueFromPaths r2 enquiriesPaths ∨
      (findValueFromPaths r1 enquiriesPaths = some x ∧
        findValueFromPaths r2 enquiriesPaths = some (Node.arr [x]))) :
    legacyEnquiries r1 = legacyEnquiries r2 := by
  unfold legacyEnquiries
  rcases henqs with heq | ⟨h1, h2⟩
  · rw [heq]
  · rw [h1, h2, truthyOpt_some_of_truthy x hx]
    dsimp only
    rw [toElems_of_isArr_false x hnarr]
    rfl

theorem summaryStage4_congr (r1 r2 x : Node) (hx : x.truthy = true) (hnarr : x.isArr = false)
    (haccs : findValueFromPaths r1 accountsPaths = findValueFromPaths r2 accountsPaths ∨
      (findValueFromPaths r1 accountsPaths = some x ∧
        findValueFromPaths r2 accountsPaths = some (Node.arr [x])))
    (henqs : findValueFromPaths r1 enquiriesPaths = findValueFromPaths r2 enquiriesPaths ∨
      (findValueFromPaths r1 enquiriesPaths = some x ∧
        findValueFromPaths r2 enquiriesPaths = some (Node.arr [x]))) :
    ∀ s, summaryStage4 r1 s = summaryStage4 r2 s := by
  intro s
  unfold summaryStage4
  by_cases ht : s.totalAccounts = 0
  · rw [if_pos ht, if_pos ht]
    have hmid : (match truthyOpt (findValueFromPaths r1 accountsPaths) with
        | none => s
        | some accounts => (toElems accounts).foldl legacyApplyAccount
            { s with totalAccounts := ((toElems accounts).length : ℚ) }) =
        (match truthyOpt (findValueFromPaths r2 accountsPaths) with
        | none => s
        | some accounts => (toElems accounts).foldl legacyApplyAccount
            { s with totalAccounts := ((toElems accounts).length : ℚ) }) := by
      rcases haccs with heq | ⟨h1, h2⟩
      · rw [heq]
      · rw [h1, h2, truthyOpt_some_of_truthy x hx]
        dsimp only
        rw [toElems_of_isArr_false x hnarr]
        rfl
    rw [hmid]
    rcases henqs with heq | ⟨h1, h2⟩
    · rw [heq]
    · rw [h1, h2, truthyOpt_some_of_truthy x hx]
      dsimp only
      rw [toElems_of_isArr_false x hnarr]
      rfl
  · rw [if_neg ht, if_neg ht]

def c3BareDoc : Node := .obj [("INProfileResponse",
  .obj [("CAIS_Account", .obj [("CAIS_Account_DETAILS", .str "")])])]

def c3WrappedDoc : Node := .obj [("INProfileResponse",
  .obj [("CAIS_Account", .obj [("CAIS_Account_DETAILS", .arr [.str ""])])])]

/-- C3 counterexample: with the account collection field holding the bare
*falsy* node `""`, the `if` guard skips the CAIS branch and no account is
produced, while the one-element wrapping `[""]` is truthy and yields one
account — the transforms differ in both `creditAccounts` and
`reportSummary.totalAccounts`, refuting the claim's unrestricted "every
parsed document". -/
theorem c3_counterexample :
    (transformCreditReportData (.utc 2024 1 1) c3BareDoc).toOption.map
      TransformedReport.creditAccounts = some [] ∧
    ((transformCreditReportData (.utc 2024 1 1) c3WrappedDoc).toOption.map
      TransformedReport.creditAccounts).map List.length = some 1 ∧
    (transformCreditReportData (.utc 2024 1 1) c3BareDoc).toOption.map
      (fun r => r.reportSummary.totalAccounts) = some 0 ∧
    (transformCreditReportData (.utc 2024 1 1) c3WrappedDoc).toOption.map
      (fun r => r.reportSummary.totalAccounts) = some 1 := by
  refine ⟨by decide, by decide, by decide, by decide⟩

/-- The document family for the primary collection field: the
`CAIS_Account.CAIS_Account_DETAILS` value is `v`, everything else arbitrary. -/
def mkCais (v : Node) (caisRest rest : List (String × Node)) : Node :=
  .obj (("CAIS_Account", .obj (("CAIS_Account_DETAILS", v) :: caisRest)) :: rest)

/-- Wrapping congruence for a legacy *account* collection field `name`: all
the v-dependent pieces enter through the stated hypotheses. -/
theorem c3_legacy_name_accounts (name : String) (x : Node) (rest : List (String × Node))
    (hx : x.truthy = true) (hnarr : x.isArr = false)
    (hrel : ∀ p ∈ accountsPaths,
      getNestedValue (Node.obj ((name, x) :: rest)) p =
        getNestedValue (Node.obj ((name, Node.arr [x]) :: rest)) p ∨
      (getNestedValue (Node.obj ((name, x) :: rest)) p = some x ∧
        getNestedValue (Node.obj ((name, Node.arr [x]) :: rest)) p = some (Node.arr [x])))
    (hrelE : findValueFromPaths (Node.obj ((name, x) :: rest)) enquiriesPaths =
        findValueFromPaths (Node.obj ((name, Node.arr [x]) :: rest)) enquiriesPaths)
    (hcais : caisAccounts (Node.obj ((name, x) :: rest)) =
        caisAccounts (Node.obj ((name, Node.arr [x]) :: rest)))
    (hsum123 : summaryStage3 (Node.obj ((name, x) :: rest))
        (summaryStage2 (Node.obj ((name, x) :: rest))
          (summaryStage1 (Node.obj ((name, x) :: rest)))) =
      summaryStage3 (Node.obj ((name, Node.arr [x]) :: rest))
        (summaryStage2 (Node.obj ((name, Node.arr [x]) :: rest))
          (summaryStage1 (Node.obj ((name, Node.arr [x]) :: rest))))) :
    extractCreditAccounts (Node.obj ((name, x) :: rest)) =
      extractCreditAccounts (Node.obj ((name, Node.arr [x]) :: rest)) ∧
    extractReportSummary (Node.obj ((name, x) :: rest)) =
      extractReportSummary (Node.obj ((name, Node.arr [x]) :: rest)) := by
  have hfa := fvp_rel x (truthy_ne_null x hx) accountsPaths _ _ hrel
  constructor
  · have hl := legacyAccounts_congr _ _ x hx hnarr hfa
    unfold extractCreditAccounts
    rw [hcais, hl]
  · have h4 := summaryStage4_congr _ _ x hx hnarr hfa (Or.inl hrelE)
    unfold extractReportSummary
    rw [hsum123]
    exact h4 _

/-- Wrapping congruence for a legacy *enquiry* collection field `name`. -/
theorem c3_legacy_name_enquiries (name : String) (x : Node) (rest : List (String × Node))
    (hx : x.truthy = true) (hnarr : x.isArr = false)
    (hrelE : ∀ p ∈ enquiriesPaths,
      getNestedValue (Node.obj ((name, x) :: rest)) p =
        getNestedValue (Node.obj ((name, Node.arr [x]) :: rest)) p ∨
      (getNestedValue (Node.obj ((name, x) :: rest)) p = some x ∧
        getNestedValue (Node.obj ((name, Node.arr [x]) :: rest)) p = some (Node.arr [x])))
    (hrelA : findValueFromPaths (Node.obj ((name, x) :: rest)) accountsPaths =
        findValueFromPaths (Node.obj ((name, Node.arr [x]) :: rest)) accountsPaths)
    (hcaps : ∀ now : JsDate, capsEnquiries now (Node.obj ((name, x) :: rest)) =
        capsEnquiries now (Node.obj ((name, Node.arr [x]) :: rest)))
    (hsum123 : summaryStage3 (Node.obj ((name, x) :: rest))
        (summaryStage2 (Node.obj ((name, x) :: rest))
          (summaryStage1 (Node.obj ((name, x) :: rest)))) =
      summaryStage3 (Node.obj ((name, Node.arr [x]) :: rest))
        (summaryStage2 (Node.obj ((name, Node.arr [x]) :: rest))
          (summaryStage1 (Node.obj ((name, Node.arr [x]) :: rest))))) :
    (∀ now : JsDate, extractEnquiries now (Node.obj ((name, x) :: rest)) =
      extractEnquiries now (Node.obj ((name, Node.arr [x]) :: rest))) ∧
    extractReportSummary (Node.obj ((name, x) :: rest)) =
      extractReportSummary (Node.obj ((name, Node.arr [x]) :: rest)) := by
  have hfe := fvp_rel x (truthy_ne_null x hx) enquiriesPaths _ _ hrelE
  constructor
  · intro now
    have hl := legacyEnquiries_congr _ _ x hx hnarr hfe
    unfold extractEnquiries
    rw [hcaps now, hl]
  · have h4 := summaryStage4_congr _ _ x hx hnarr (Or.inl hrelA) hfe
    unfold extractReportSummary
    rw [hsum123]
    exact h4 _

/-- C3 amended: transforming a document where an account or enquiry
collection field holds a single bare *truthy* (non-array) node yields exactly
the same creditAccounts/enquiries and the same reportSummary as the document
with that field wrapped in a one-element array — universally over the bare
node, the field's siblings and the rest of the document, for the primary
`CAIS_Account.CAIS_Account_DETAILS` field and for every legacy account and
enquiry collection field name.  (For a falsy bare node such as `""` the two
documents genuinely differ — see the counterexample.) -/
theorem c3_amended_singular_plural :
    ∀ x : Node, x.truthy = true → x.isArr = false →
    ((∀ caisRest rest : List (String × Node),
      extractCreditAccounts (mkCais x caisRest rest) =
        extractCreditAccounts (mkCais (.arr [x]) caisRest rest) ∧
      extractReportSummary (mkCais x caisRest rest) =
        extractReportSummary (mkCais (.arr [x]) caisRest rest)) ∧
     (∀ name ∈ accountsPaths, ∀ rest : List (String × Node),
      extractCreditAccounts (.obj ((name, x) :: rest)) =
        extractCreditAccounts (.obj ((name, .arr [x]) :: rest)) ∧
      extractReportSummary (.obj ((name, x) :: rest)) =
        extractReportSummary (.obj ((name, .arr [x]) :: rest))) ∧
     (∀ name ∈ enquiriesPaths, ∀ (rest : List (String × Node)) (now : JsDate),
      extractEnquiries now (.obj ((name, x) :: rest)) =
        extractEnquiries now (.obj ((name, .arr [x]) :: rest)) ∧
      extractReportSummary (.obj ((name, x) :: rest)) =
        extractReportSummary (.obj ((name, .arr [x]) :: rest)))) := by
  intro x hx hnarr
  refine ⟨?_, ?_, ?_⟩
  · -- primary CAIS collection field
    intro caisRest rest
    constructor
    · have h1 : caisAccounts (mkCais x caisRest rest) = [mapCaisAccount x] := by
        unfold caisAccounts
        rw [show caisDetailsBlock (mkCais x caisRest rest) = truthyOpt (some x) from rfl,
          truthyOpt_some_of_truthy x hx]
        dsimp only
        rw [toElems_of_isArr_false x hnarr]
        rfl
      have h2 : caisAccounts (mkCais (.arr [x]) caisRest rest) = [mapCaisAccount x] := rfl
      unfold extractCreditAccounts
      rw [h1, h2]
      rfl
    · have h2 : ∀ s, summaryStage2 (mkCais x caisRest rest) s =
          summaryStage2 (mkCais (.arr [x]) caisRest rest) s := by
        intro s
        unfold summaryStage2
        rw [show caisDetailsBlock (mkCais x caisRest rest) = truthyOpt (some x) from rfl,
          show caisDetailsBlock (mkCais (.arr [x]) caisRest rest) =
            some (Node.arr [x]) from rfl,
          truthyOpt_some_of_truthy x hx]
        dsimp only
        rw [toElems_of_isArr_false x hnarr]
        rfl
      have hsum123 : summaryStage3 (mkCais x caisRest rest)
          (summaryStage2 (mkCais x caisRest rest)
            (summaryStage1 (mkCais x caisRest rest))) =
          summaryStage3 (mkCais (.arr [x]) caisRest rest)
            (summaryStage2 (mkCais (.arr [x]) caisRest rest)
              (summaryStage1 (mkCais (.arr [x]) caisRest rest))) := by
        rw [h2 (summaryStage1 (mkCais x caisRest rest))]
        rfl
      have h4 : ∀ s, summaryStage4 (mkCais x caisRest rest) s =
          summaryStage4 (mkCais (.arr [x]) caisRest rest) s := fun s => rfl
      unfold extractReportSummary
      rw [hsum123]
      exact h4 _
  · -- legacy account collection fields
    intro name hname rest
    fin_cases hname
    · exact c3_legacy_name_accounts "Accounts" x rest hx hnarr
        (by intro p hp; fin_cases hp <;>
          first | (right; exact ⟨rfl, rfl⟩) | (left; rfl))
        rfl rfl rfl
    · exact c3_legacy_name_accounts "CreditAccounts" x rest hx hnarr
        (by intro p hp; fin_cases hp <;>
          first | (right; exact ⟨rfl, rfl⟩) | (left; rfl))
        rfl rfl rfl
    · exact c3_legacy_name_accounts "AccountInfo" x rest hx hnarr
        (by intro p hp; fin_cases hp <;>
          first | (right; exact ⟨rfl, rfl⟩) | (left; rfl))
        rfl rfl rfl
    · exact c3_legacy_name_accounts "TradeLines" x rest hx hnarr
        (by intro p hp; fin_cases hp <;>
          first | (right; exact ⟨rfl, rfl⟩) | (left; rfl))
        rfl rfl rfl
  · -- legacy enquiry collection fields
    intro name hname rest now
    fin_cases hname
    · obtain ⟨he, hs⟩ := c3_legacy_name_enquiries "Enquiries" x rest hx hnarr
        (by intro p hp; fin_cases hp <;>
          first | (right; exact ⟨rfl, rfl⟩) | (left; rfl))
        rfl (fun _ => rfl) rfl
      exact ⟨he now, hs⟩
    · obtain ⟨he, hs⟩ := c3_legacy_name_enquiries "CreditEnquiries" x rest hx hnarr
        (by intro p hp; fin_cases hp <;>
          first | (right; exact ⟨rfl, rfl⟩) | (left; rfl))
        rfl (fun _ => rfl) rfl
      exact ⟨he now, hs⟩
    · obtain ⟨he, hs⟩ := c3_legacy_name_enquiries "InquiryInfo" x rest hx hnarr
        (by intro p hp; fin_cases hp <;>
          first | (right; exact ⟨rfl, rfl⟩) | (left; rfl))
        rfl (fun _ => rfl) rfl
      exact ⟨he now, hs⟩

/-- Witness for C3's amended theorem: concrete truthy bare nodes for the CAIS
field, a legacy account field, and a legacy enquiry field. -/
theorem c3_amended_witness :
    extractCreditAccounts (mkCais (.obj [("Account_Type", .str "10")]) [] []) =
      extractCreditAccounts (mkCais (.arr [.obj [("Account_Type", .str "10")]]) [] []) ∧
    extractReportSummary (.obj [("Accounts", .obj [("Type", .str "Card")])]) =
      extractReportSummary (.obj [("Accounts", .arr [.obj [("Type", .str "Card")]])]) ∧
    extractEnquiries (.utc 2024 1 1) (.obj [("Enquiries", .obj [("Institution", .str "X")])]) =
      extractEnquiries (.utc 2024 1 1)
        (.obj [("Enquiries", .arr [.obj [("Institution", .str "X")]])]) :=
  ⟨((c3_amended_singular_plural (.obj [("Account_Type", .str "10")]) rfl rfl).1 [] []).1,
   ((c3_amended_singular_plural (.obj [("Type", .str "Card")]) rfl rfl).2.1
     "Accounts" (by decide) []).2,
   ((c3_amended_singular_plural (.obj [("Institution", .str "X")]) rfl rfl).2.2
     "Enquiries" (by decide) [] (.utc 2024 1 1)).1⟩
